import Mathlib

/-!
Shallow embedding of `src/decision_engine.py`, the card-not-present (CNP)
rules engine: the transaction record, the configuration, the scoring
pipeline `assess_row` (steps 1-9 of the source), `DEFAULT_CONFIG`, and the
per-row loop of the batch `run` function. Each definition mirrors the
source line by line; the step numbers in the doc comments are the numbered
comments of the source.
-/

namespace Engine

/-- Python `str.lower()` (ASCII case mapping; the engine's vocabulary is ASCII). -/
def pyLower (s : String) : String := ⟨s.data.map Char.toLower⟩

/-- Python `str.upper()`. -/
def pyUpper (s : String) : String := ⟨s.data.map Char.toUpper⟩

/-- A transaction record (a `pandas` row): every column the engine reads may be
absent, and `row.get(field, default)` supplies the default. Integer columns are
`Int`, the decimal amount is `Rat` (exact), categorical columns are `String`. -/
structure Row where
  transaction_id : Option Int := none
  amount_mxn : Option Rat := none
  customer_txn_30d : Option Int := none
  geo_state : Option String := none
  device_type : Option String := none
  chargeback_count : Option Int := none
  hour : Option Int := none
  product_type : Option String := none
  latency_ms : Option Int := none
  user_reputation : Option String := none
  device_fingerprint_risk : Option String := none
  ip_risk : Option String := none
  email_risk : Option String := none
  bin_country : Option String := none
  ip_country : Option String := none
deriving DecidableEq

/-- Python `dict.get(k)` on an association list (first match wins). -/
def dictFind {α : Type} (m : List (String × α)) (k : String) : Option α :=
  match m with
  | [] => none
  | (k', v) :: rest => if k' = k then some v else dictFind rest k

/-- Python `dict.get(k, d)` for the integer weight tables. -/
def dictGet (m : List (String × Int)) (k : String) (d : Int) : Int :=
  (dictFind m k).getD d

/-- The engine configuration: the shape of `DEFAULT_CONFIG` in the source.
The four categorical weight tables are association lists; the flat weights,
the two decision thresholds and the two rule thresholds are integers; the
per-product amount thresholds (including the `"_default"` entry) are `Rat`. -/
structure Config where
  amount_thresholds : List (String × Rat)
  latency_ms_extreme : Int
  chargeback_hard_block : Int
  w_ip_risk : List (String × Int)
  w_email_risk : List (String × Int)
  w_device_fingerprint_risk : List (String × Int)
  w_user_reputation : List (String × Int)
  w_night_hour : Int
  w_geo_mismatch : Int
  w_high_amount : Int
  w_latency_extreme : Int
  w_new_user_high_amount : Int
  reject_at : Int
  review_at : Int

/-- `DEFAULT_CONFIG` of the source, lines 43-67. -/
def DEFAULT_CONFIG : Config where
  amount_thresholds :=
    [("digital", 2500), ("physical", 6000), ("subscription", 1500), ("_default", 4000)]
  latency_ms_extreme := 2500
  chargeback_hard_block := 2
  w_ip_risk := [("low", 0), ("medium", 2), ("high", 4)]
  w_email_risk := [("low", 0), ("medium", 1), ("high", 3), ("new_domain", 2)]
  w_device_fingerprint_risk := [("low", 0), ("medium", 2), ("high", 4)]
  w_user_reputation := [("trusted", -2), ("recurrent", -1), ("new", 0), ("high_risk", 4)]
  w_night_hour := 1
  w_geo_mismatch := 2
  w_high_amount := 2
  w_latency_extreme := 2
  w_new_user_high_amount := 2
  reject_at := 8
  review_at := 4

/-- `is_night(hour)`: `hour >= 22 or hour <= 5`. -/
def is_night (hour : Int) : Bool :=
  decide (hour ≥ 22) || decide (hour ≤ 5)

/-- `high_amount(amount, product_type, thresholds)`:
`t = thresholds.get(product_type, thresholds.get("_default")); amount >= t`.
If both lookups miss, Python would raise on the comparison with `None`; no rule
fires there, and the model returns `false`. -/
def high_amount (amount : Rat) (product_type : String)
    (thresholds : List (String × Rat)) : Bool :=
  match (dictFind thresholds product_type).orElse
      (fun _ => dictFind thresholds "_default") with
  | some t => decide (amount ≥ t)
  | none => false

/-- Step 1 guard: `int(row.get("chargeback_count", 0)) >= cfg["chargeback_hard_block"]
and str(row.get("ip_risk", "low")).lower() == "high"`. -/
def hardBlock (row : Row) (cfg : Config) : Bool :=
  decide (row.chargeback_count.getD 0 ≥ cfg.chargeback_hard_block) &&
    decide (pyLower (row.ip_risk.getD "low") = "high")

/-- Step 2: the normalized categorical value, `str(row.get(field, "low")).lower()`. -/
def catVal (field : Option String) : String := pyLower (field.getD "low")

/-- Step 2: the weight added for one categorical field, `mapping.get(val, 0)`. -/
def catAdd (mapping : List (String × Int)) (field : Option String) : Int :=
  dictGet mapping (catVal field) 0

/-- Step 2: the reason recorded for one categorical field; `if add:` records it
only when the weight is nonzero. -/
def catReasons (name : String) (mapping : List (String × Int))
    (field : Option String) : List String :=
  if catAdd mapping field ≠ 0 then
    [name ++ ":" ++ catVal field ++ "(+" ++ toString (catAdd mapping field) ++ ")"]
  else []

/-- Step 3: `rep = str(row.get("user_reputation", "new")).lower()`. -/
def rep (row : Row) : String := pyLower (row.user_reputation.getD "new")

/-- Step 3: `rep_add = cfg["score_weights"]["user_reputation"].get(rep, 0)`. -/
def repAdd (cfg : Config) (row : Row) : Int :=
  dictGet cfg.w_user_reputation (rep row) 0

/-- Step 3: the reputation reason, recorded `if rep_add:` with an explicit `+`
sign when nonnegative. -/
def repReasons (cfg : Config) (row : Row) : List String :=
  if repAdd cfg row ≠ 0 then
    ["user_reputation:" ++ rep row ++ "(" ++
      (if repAdd cfg row ≥ 0 then "+" else "") ++ toString (repAdd cfg row) ++ ")"]
  else []

/-- Step 4: `hr = int(row.get("hour", 12))`. -/
def hr (row : Row) : Int := row.hour.getD 12

/-- Step 4: the night-hour weight; added exactly when `is_night(hr)`. -/
def nightAdd (cfg : Config) (row : Row) : Int :=
  if is_night (hr row) then cfg.w_night_hour else 0

/-- Step 4: the night-hour reason; recorded whenever `is_night(hr)`, with no
guard on the weight being nonzero. -/
def nightReasons (cfg : Config) (row : Row) : List String :=
  if is_night (hr row) then
    ["night_hour:" ++ toString (hr row) ++ "(+" ++ toString cfg.w_night_hour ++ ")"]
  else []

/-- Step 5: `bin_c = str(row.get("bin_country", "")).upper()`. -/
def binC (row : Row) : String := pyUpper (row.bin_country.getD "")

/-- Step 5: `ip_c = str(row.get("ip_country", "")).upper()`. -/
def ipC (row : Row) : String := pyUpper (row.ip_country.getD "")

/-- Step 5 guard: `if bin_c and ip_c and bin_c != ip_c` (a Python string is
truthy iff non-empty). -/
def geoFires (row : Row) : Bool :=
  decide (binC row ≠ "") && decide (ipC row ≠ "") && decide (binC row ≠ ipC row)

/-- Step 5: the geo-mismatch weight. -/
def geoAdd (cfg : Config) (row : Row) : Int :=
  if geoFires row then cfg.w_geo_mismatch else 0

/-- Step 5: the geo-mismatch reason with both country codes. -/
def geoReasons (cfg : Config) (row : Row) : List String :=
  if geoFires row then
    ["geo_mismatch:" ++ binC row ++ "!=" ++ ipC row ++
      "(+" ++ toString cfg.w_geo_mismatch ++ ")"]
  else []

/-- Step 6: `amount = float(row.get("amount_mxn", 0.0))`. -/
def amount (row : Row) : Rat := row.amount_mxn.getD 0

/-- Step 6: `ptype = str(row.get("product_type", "_default")).lower()`. -/
def ptype (row : Row) : String := pyLower (row.product_type.getD "_default")

/-- Step 6 guard: `high_amount(amount, ptype, cfg["amount_thresholds"])`. -/
def highFires (cfg : Config) (row : Row) : Bool :=
  high_amount (amount row) (ptype row) cfg.amount_thresholds

/-- Step 6: the high-amount weight. -/
def highAdd (cfg : Config) (row : Row) : Int :=
  if highFires cfg row then cfg.w_high_amount else 0

/-- Step 6, nested sub-rule: the new-user-high-amount weight, added only inside
the high-amount branch and only when `rep == "new"`. -/
def newUserAdd (cfg : Config) (row : Row) : Int :=
  if highFires cfg row then
    (if rep row = "new" then cfg.w_new_user_high_amount else 0)
  else 0

/-- Step 6: the high-amount reason, followed by the nested new-user reason when
`rep == "new"`. -/
def amountReasons (cfg : Config) (row : Row) : List String :=
  if highFires cfg row then
    ["high_amount:" ++ ptype row ++ ":" ++ toString (amount row) ++
      "(+" ++ toString cfg.w_high_amount ++ ")"] ++
      (if rep row = "new" then
        ["new_user_high_amount(+" ++ toString cfg.w_new_user_high_amount ++ ")"]
      else [])
  else []

/-- Step 7: `lat = int(row.get("latency_ms", 0))`. -/
def lat (row : Row) : Int := row.latency_ms.getD 0

/-- Step 7 guard: `lat >= cfg["latency_ms_extreme"]`. -/
def latFires (cfg : Config) (row : Row) : Bool :=
  decide (lat row ≥ cfg.latency_ms_extreme)

/-- Step 7: the extreme-latency weight. -/
def latAdd (cfg : Config) (row : Row) : Int :=
  if latFires cfg row then cfg.w_latency_extreme else 0

/-- Step 7: the extreme-latency reason with the latency value. -/
def latReasons (cfg : Config) (row : Row) : List String :=
  if latFires cfg row then
    ["latency_extreme:" ++ toString (lat row) ++ "ms(+" ++
      toString cfg.w_latency_extreme ++ ")"]
  else []

/-- The running score after steps 2-7: those steps only ever add their weight
(`score += add`) and never read the accumulator, so the accumulated value is
the sum of the per-step contributions in program order. This is the value the
step-8 guard reads as `score > 0`. -/
def scorePre (cfg : Config) (row : Row) : Int :=
  catAdd cfg.w_ip_risk row.ip_risk + catAdd cfg.w_email_risk row.email_risk +
    catAdd cfg.w_device_fingerprint_risk row.device_fingerprint_risk +
    repAdd cfg row + nightAdd cfg row + geoAdd cfg row +
    highAdd cfg row + newUserAdd cfg row + latAdd cfg row

/-- Step 8: `freq = int(row.get("customer_txn_30d", 0))`. -/
def freq (row : Row) : Int := row.customer_txn_30d.getD 0

/-- Step 8 guard: `rep in ("recurrent", "trusted") and freq >= 3 and score > 0`. -/
def bufferFires (cfg : Config) (row : Row) : Bool :=
  (decide (rep row = "recurrent") || decide (rep row = "trusted")) &&
    decide (freq row ≥ 3) && decide (scorePre cfg row > 0)

/-- The final score: step 8 subtracts exactly 1 when its guard holds. -/
def finalScore (cfg : Config) (row : Row) : Int :=
  if bufferFires cfg row then scorePre cfg row - 1 else scorePre cfg row

/-- Step 8: the frequency-buffer reason. -/
def bufferReasons (cfg : Config) (row : Row) : List String :=
  if bufferFires cfg row then ["frequency_buffer(-1)"] else []

/-- The `reasons` list accumulated by steps 2-8 in program order. -/
def reasonsList (cfg : Config) (row : Row) : List String :=
  catReasons "ip_risk" cfg.w_ip_risk row.ip_risk ++
    catReasons "email_risk" cfg.w_email_risk row.email_risk ++
    catReasons "device_fingerprint_risk" cfg.w_device_fingerprint_risk
      row.device_fingerprint_risk ++
    repReasons cfg row ++ nightReasons cfg row ++ geoReasons cfg row ++
    amountReasons cfg row ++ latReasons cfg row ++ bufferReasons cfg row

def DECISION_ACCEPTED : String := "ACCEPTED"

def DECISION_IN_REVIEW : String := "IN_REVIEW"

def DECISION_REJECTED : String := "REJECTED"

/-- Step 9: map the final score to a decision; `reject_at` is compared first. -/
def decisionOf (cfg : Config) (score : Int) : String :=
  if score ≥ cfg.reject_at then DECISION_REJECTED
  else if score ≥ cfg.review_at then DECISION_IN_REVIEW
  else DECISION_ACCEPTED

/-- The dict returned by `assess_row`; `reasons` is kept as the accumulated
list, which the source joins with `";"` on return. -/
structure AssessResult where
  decision : String
  risk_score : Int
  reasons : List String
deriving DecidableEq

/-- `assess_row(row, cfg)`: the step-1 hard block short-circuits with score 100
and the single hard-block reason; otherwise steps 2-8 produce the score and
reasons and step 9 maps the score to the decision. -/
def assess_row (row : Row) (cfg : Config) : AssessResult :=
  if hardBlock row cfg then
    { decision := DECISION_REJECTED, risk_score := 100,
      reasons := ["hard_block:chargebacks>=2+ip_high"] }
  else
    { decision := decisionOf cfg (finalScore cfg row),
      risk_score := finalScore cfg row,
      reasons := reasonsList cfg row }

/-- The `reasons` field as returned: `";".join(reasons)`. -/
def joinedReasons (r : AssessResult) : String := String.intercalate ";" r.reasons

/-- The per-row loop of `run`: `for _, row in df.iterrows(): results.append(assess_row(row, cfg))`. -/
def runResults (cfg : Config) : List Row → List AssessResult
  | [] => []
  | r :: rs => assess_row r cfg :: runResults cfg rs

/-- The output table of `run`: the input rows with the three added columns
(`decision`, `risk_score`, `reasons`), row `i` of the output carrying input
row `i` and its assessment. -/
def runTable (rows : List Row) (cfg : Config) : List (Row × AssessResult) :=
  rows.zip (runResults cfg rows)

/-- The reasons accumulated by steps 2-7, before the step-8 buffer. -/
def preBufferReasons (cfg : Config) (row : Row) : List String :=
  catReasons "ip_risk" cfg.w_ip_risk row.ip_risk ++
    catReasons "email_risk" cfg.w_email_risk row.email_risk ++
    catReasons "device_fingerprint_risk" cfg.w_device_fingerprint_risk
      row.device_fingerprint_risk ++
    repReasons cfg row ++ nightReasons cfg row ++ geoReasons cfg row ++
    amountReasons cfg row ++ latReasons cfg row

/-! ### Concrete rows used as inputs of witnesses and counterexamples -/

/-- Spec Scenario B: `amount_mxn=5200, product_type=digital, user_reputation=new,
ip_risk=medium, email_risk=new_domain, hour=23`, everything else absent. -/
def scenarioB : Row :=
  { amount_mxn := some 5200, product_type := some "digital",
    user_reputation := some "new", ip_risk := some "medium",
    email_risk := some "new_domain", hour := some 23 }

/-- A hard-block row: two chargebacks and (upper-case) high IP risk. -/
def rowHard : Row := { chargeback_count := some 2, ip_risk := some "HIGH" }

/-- The all-absent row: every column takes its engine default. -/
def rowEmpty : Row := {}

/-- A recurrent customer with 5 transactions in 30 days and medium IP risk. -/
def rowBuffer : Row :=
  { user_reputation := some "recurrent", customer_txn_30d := some 5,
    ip_risk := some "medium" }

/-- A US card with the `ip_country` column absent. -/
def rowGeoUS : Row := { bin_country := some "US" }

/-- A transaction at 23h, everything else absent. -/
def rowNight : Row := { hour := some 23 }

/-- The default configuration with the night-hour weight set to zero. -/
def cfgNightZero : Config := { DEFAULT_CONFIG with w_night_hour := 0 }

end Engine

namespace Engine

/-! ### Infrastructure: reasons entries and their rule tags

Every reason entry is built by appending detail text to a fixed, rule-specific
tag ("ip_risk:", "night_hour:", ...), so an entry is attributed to a rule by
the tag being a prefix of its character list. -/

/-- `String.data` distributes over `++`. -/
theorem data_append (s t : String) : (s ++ t).data = s.data ++ t.data := rfl

/-- A string tags its own extensions. -/
theorem append_tag (a b : String) : a.data <+: (a ++ b).data := by
  rw [data_append]
  exact List.prefix_append _ _

/-- A tag of `r` is a tag of `r ++ s`. -/
theorem tag_trans {t : List Char} {r s : String} (h : t <+: r.data) :
    t <+: (r ++ s).data := by
  rw [data_append]
  exact h.trans ( List.prefix_append _ _)

/-- Two tags that do not extend one another cannot tag the same entry. -/
theorem tag_excl {t₁ t₂ r : List Char} (h₁ : t₁ <+: r) (h₂ : ¬t₁ <+: t₂)
    (h₃ : ¬t₂ <+: t₁) : ¬t₂ <+: r := fun h =>
  ( List.prefix_or_prefix_of_prefix h₁ h).elim h₂ h₃

/-- A categorical reason entry is tagged by its field name and a colon. -/
theorem mem_catReasons {name : String} {m : List (String × Int)}
    {f : Option String} {r : String} (h : r ∈ catReasons name m f) :
    (name ++ ":").data <+: r.data := by
  unfold catReasons at h
  split at h
  · simp only [List.mem_singleton] at h
    subst h
    exact tag_trans (tag_trans (tag_trans (append_tag _ _)))
  · cases h

/-- A reputation reason entry is tagged `"user_reputation:"`. -/
theorem mem_repReasons {cfg : Config} {row : Row} {r : String}
    (h : r ∈ repReasons cfg row) : "user_reputation:".data <+: r.data := by
  unfold repReasons at h
  split at h
  · simp only [List.mem_singleton] at h
    subst h
    exact tag_trans (tag_trans (tag_trans (tag_trans (append_tag _ _))))
  · cases h

/-- A night-hour reason entry is tagged `"night_hour:"`. -/
theorem mem_nightReasons {cfg : Config} {row : Row} {r : String}
    (h : r ∈ nightReasons cfg row) : "night_hour:".data <+: r.data := by
  unfold nightReasons at h
  split at h
  · simp only [List.mem_singleton] at h
    subst h
    exact tag_trans (tag_trans (tag_trans (append_tag _ _)))
  · cases h

/-- A geo-mismatch reason entry is tagged `"geo_mismatch:"`. -/
theorem mem_geoReasons {cfg : Config} {row : Row} {r : String}
    (h : r ∈ geoReasons cfg row) : "geo_mismatch:".data <+: r.data := by
  unfold geoReasons at h
  split at h
  · simp only [List.mem_singleton] at h
    subst h
    exact tag_trans (tag_trans (tag_trans (tag_trans (tag_trans (append_tag _ _)))))
  · cases h

/-- An amount reason entry needs the high-amount rule to have fired, and is
either the high-amount entry or, when the reputation is `"new"`, the nested
new-user entry. -/
theorem mem_amountReasons {cfg : Config} {row : Row} {r : String}
    (h : r ∈ amountReasons cfg row) :
    highFires cfg row = true ∧
      ("high_amount:".data <+: r.data ∨
        ("new_user_high_amount(".data <+: r.data ∧ rep row = "new")) := by
  unfold amountReasons at h
  split at h
  case isTrue hf =>
    refine ⟨hf, ?_⟩
    rw [List.mem_append] at h
    rcases h with h | h
    · simp only [List.mem_singleton] at h
      subst h
      exact Or.inl (tag_trans (tag_trans (tag_trans (tag_trans (append_tag _ _)))))
    · split at h
      case isTrue hrep =>
        simp only [List.mem_singleton] at h
        subst h
        refine Or.inr ⟨?_, hrep⟩
        exact tag_trans (tag_trans (by decide : "new_user_high_amount(".data <+: ("new_user_high_amount(+" : String).data))
      case isFalse => cases h
  case isFalse => cases h

/-- An extreme-latency reason entry is tagged `"latency_extreme:"`. -/
theorem mem_latReasons {cfg : Config} {row : Row} {r : String}
    (h : r ∈ latReasons cfg row) : "latency_extreme:".data <+: r.data := by
  unfold latReasons at h
  split at h
  · simp only [List.mem_singleton] at h
    subst h
    exact tag_trans (tag_trans (tag_trans (append_tag _ _)))
  · cases h

/-- A buffer reason entry is the literal buffer string, and needs the step-8
guard to have fired. -/
theorem mem_bufferReasons {cfg : Config} {row : Row} {r : String}
    (h : r ∈ bufferReasons cfg row) :
    r = "frequency_buffer(-1)" ∧ bufferFires cfg row = true := by
  unfold bufferReasons at h
  split at h
  case isTrue hf =>
    simp only [List.mem_singleton] at h
    exact ⟨h, hf⟩
  case isFalse => cases h

/-- The reasons list splits at the step-8 buffer. -/
theorem reasonsList_decomp (cfg : Config) (row : Row) :
    reasonsList cfg row = preBufferReasons cfg row ++ bufferReasons cfg row := rfl

/-- Membership in the reasons list is membership in one of the step groups. -/
theorem mem_reasonsList_iff {cfg : Config} {row : Row} {r : String} :
    r ∈ reasonsList cfg row ↔
      r ∈ catReasons "ip_risk" cfg.w_ip_risk row.ip_risk ∨
      r ∈ catReasons "email_risk" cfg.w_email_risk row.email_risk ∨
      r ∈ catReasons "device_fingerprint_risk" cfg.w_device_fingerprint_risk
        row.device_fingerprint_risk ∨
      r ∈ repReasons cfg row ∨ r ∈ nightReasons cfg row ∨
      r ∈ geoReasons cfg row ∨ r ∈ amountReasons cfg row ∨
      r ∈ latReasons cfg row ∨ r ∈ bufferReasons cfg row := by
  simp only [reasonsList, List.mem_append, or_assoc]

/-- C1: for every transaction with `chargeback_count` (default 0) at least the
configured `chargeback_hard_block` and `ip_risk` equal to `"high"` after
lower-casing, and for every configuration, `assess_row` returns `REJECTED`
with `risk_score` exactly 100 and the single reason
`"hard_block:chargebacks>=2+ip_high"`: no other rule contributes to the score
or the reasons, whatever the other fields hold. -/
theorem hard_block_short_circuit (row : Row) (cfg : Config)
    (h1 : row.chargeback_count.getD 0 ≥ cfg.chargeback_hard_block)
    (h2 : pyLower (row.ip_risk.getD "low") = "high") :
    assess_row row cfg =
      { decision := DECISION_REJECTED, risk_score := 100,
        reasons := ["hard_block:chargebacks>=2+ip_high"] } := by
  have hb : hardBlock row cfg = true := by
    simp [hardBlock, h1, h2]
  simp [assess_row, hb]

/-- C1 witness: the hard block at a concrete input (`chargeback_count = 2`,
`ip_risk = "HIGH"`) under the default configuration. -/
theorem hard_block_short_circuit_witness :
    assess_row rowHard DEFAULT_CONFIG =
      { decision := DECISION_REJECTED, risk_score := 100,
        reasons := ["hard_block:chargebacks>=2+ip_high"] } :=
  hard_block_short_circuit rowHard DEFAULT_CONFIG (by decide) (by decide)

/-- C2 (code evaluated at the failing input): Scenario B under the default
configuration of the source (`reject_at = 8`) scores 9 and is REJECTED, not
IN_REVIEW as the spec scenario and the repository's own test
`test_in_review_new_user_high_amount_night` state. -/
theorem scenario_b_code_result :
    assess_row scenarioB DEFAULT_CONFIG =
      { decision := DECISION_REJECTED, risk_score := 9,
        reasons := ["ip_risk:medium(+2)", "email_risk:new_domain(+2)",
          "night_hour:23(+1)", "high_amount:digital:5200(+2)",
          "new_user_high_amount(+2)"] } := by decide

/-- C3: whenever the hard block does not fire, the returned decision is
determined from the returned score by the two inclusive thresholds,
`reject_at` checked first: score at least `reject_at` gives REJECTED, else
score at least `review_at` gives IN_REVIEW, else ACCEPTED. -/
theorem decision_mapping (row : Row) (cfg : Config)
    (h : hardBlock row cfg = false) :
    ((assess_row row cfg).risk_score ≥ cfg.reject_at →
      (assess_row row cfg).decision = DECISION_REJECTED) ∧
    ((assess_row row cfg).risk_score < cfg.reject_at →
      (assess_row row cfg).risk_score ≥ cfg.review_at →
        (assess_row row cfg).decision = DECISION_IN_REVIEW) ∧
    ((assess_row row cfg).risk_score < cfg.reject_at →
      (assess_row row cfg).risk_score < cfg.review_at →
        (assess_row row cfg).decision = DECISION_ACCEPTED) := by
  simp only [assess_row, h, Bool.false_eq_true, if_false]
  unfold decisionOf
  refine ⟨fun h1 => ?_, fun h1 h2 => ?_, fun h1 h2 => ?_⟩
  · rw [if_pos h1]
  · rw [if_neg (by omega), if_pos h2]
  · rw [if_neg (by omega), if_neg (by omega)]

/-- C3 witness: the mapping at the all-absent row (score 0, ACCEPTED) under
the default configuration. -/
theorem decision_mapping_witness :
    hardBlock rowEmpty DEFAULT_CONFIG = false ∧
    (((assess_row rowEmpty DEFAULT_CONFIG).risk_score ≥ DEFAULT_CONFIG.reject_at →
      (assess_row rowEmpty DEFAULT_CONFIG).decision = DECISION_REJECTED) ∧
    ((assess_row rowEmpty DEFAULT_CONFIG).risk_score < DEFAULT_CONFIG.reject_at →
      (assess_row rowEmpty DEFAULT_CONFIG).risk_score ≥ DEFAULT_CONFIG.review_at →
        (assess_row rowEmpty DEFAULT_CONFIG).decision = DECISION_IN_REVIEW) ∧
    ((assess_row rowEmpty DEFAULT_CONFIG).risk_score < DEFAULT_CONFIG.reject_at →
      (assess_row rowEmpty DEFAULT_CONFIG).risk_score < DEFAULT_CONFIG.review_at →
        (assess_row rowEmpty DEFAULT_CONFIG).decision = DECISION_ACCEPTED)) :=
  ⟨by decide, decision_mapping rowEmpty DEFAULT_CONFIG (by decide)⟩

/-- C6 counterexample: a transaction with `bin_country = "US"` and
`ip_country` absent does NOT trigger the geo-mismatch rule: the engine
defaults the absent country to `""` (not `"MX"`), the rule requires both
codes non-empty, and the result carries score 0 and no reasons. -/
theorem geo_us_absent_ip_no_mismatch :
    assess_row rowGeoUS DEFAULT_CONFIG =
      { decision := DECISION_ACCEPTED, risk_score := 0, reasons := [] } := by
  decide

/-- C6 amended: inside the engine an absent `ip_country` defaults to the empty
string, so the geo-mismatch rule (which requires both upper-cased codes
non-empty) never fires, adds no weight, and no geo-mismatch reason appears in
the result, whatever `bin_country` holds. -/
theorem geo_requires_present_ip (row : Row) (cfg : Config)
    (h : row.ip_country = none) :
    geoFires row = false ∧ geoAdd cfg row = 0 ∧ geoReasons cfg row = [] ∧
      ∀ r ∈ (assess_row row cfg).reasons, ¬("geo_mismatch:".data <+: r.data) := by
  have hip : ipC row = "" := by
    unfold ipC
    rw [h]
    rfl
  have hg : geoFires row = false := by
    unfold geoFires
    rw [hip]
    simp
  refine ⟨hg, by simp [geoAdd, hg], by simp [geoReasons, hg], ?_⟩
  intro r hr htag
  unfold assess_row at hr
  split at hr
  · simp only [List.mem_singleton] at hr
    subst hr
    exact absurd htag (by decide)
  · simp only at hr
    rcases mem_reasonsList_iff.1 hr with hm | hm | hm | hm | hm | hm | hm | hm | hm
    · exact tag_excl (mem_catReasons hm) (by decide) (by decide) htag
    · exact tag_excl (mem_catReasons hm) (by decide) (by decide) htag
    · exact tag_excl (mem_catReasons hm) (by decide) (by decide) htag
    · exact tag_excl (mem_repReasons hm) (by decide) (by decide) htag
    · exact tag_excl (mem_nightReasons hm) (by decide) (by decide) htag
    · simp [geoReasons, hg] at hm
    · rcases (mem_amountReasons hm).2 with ht | ⟨ht, _⟩
      · exact tag_excl ht (by decide) (by decide) htag
      · exact tag_excl ht (by decide) (by decide) htag
    · exact tag_excl (mem_latReasons hm) (by decide) (by decide) htag
    · rw [(mem_bufferReasons hm).1] at htag
      exact absurd htag (by decide)

/-- C6 amended witness: the concrete US-card row with absent `ip_country`. -/
theorem geo_requires_present_ip_witness :
    geoFires rowGeoUS = false ∧ geoAdd DEFAULT_CONFIG rowGeoUS = 0 ∧
      geoReasons DEFAULT_CONFIG rowGeoUS = [] ∧
      ∀ r ∈ (assess_row rowGeoUS DEFAULT_CONFIG).reasons,
        ¬("geo_mismatch:".data <+: r.data) :=
  geo_requires_present_ip rowGeoUS DEFAULT_CONFIG (by decide)

/-- C8: under the default configuration the engine is total on every
transaction record (any combination of present and absent fields): it always
returns one of the three decisions together with an integer score and a
reasons list; there is no failing branch. -/
theorem assess_row_total (row : Row) :
    (assess_row row DEFAULT_CONFIG).decision = DECISION_ACCEPTED ∨
    (assess_row row DEFAULT_CONFIG).decision = DECISION_IN_REVIEW ∨
    (assess_row row DEFAULT_CONFIG).decision = DECISION_REJECTED := by
  unfold assess_row decisionOf
  split_ifs <;> simp

/-- The output table is the input table mapped through the engine. -/
theorem runTable_eq_map (rows : List Row) (cfg : Config) :
    runTable rows cfg = rows.map (fun r => (r, assess_row r cfg)) := by
  induction rows with
  | nil => rfl
  | cons r rs ih =>
      unfold runTable runResults
      unfold runTable at ih
      simp only [List.zip_cons_cons, List.map_cons, ih]

/-- C9: for every input table and every configuration, the batch loop of
`run` produces one output row per input row, in input order: row `i` of the
output is input row `i` together with exactly one decision/score/reasons
triple, the result of `assess_row` on that row. -/
theorem run_preserves_rows (rows : List Row) (cfg : Config) :
    (runTable rows cfg).length = rows.length ∧
    runTable rows cfg = rows.map (fun r => (r, assess_row r cfg)) := by
  refine ⟨?_, runTable_eq_map rows cfg⟩
  rw [runTable_eq_map rows cfg, List.length_map]

/-- The step-8 guard as a proposition. -/
theorem bufferFires_iff {cfg : Config} {row : Row} :
    bufferFires cfg row = true ↔
      (rep row = "recurrent" ∨ rep row = "trusted") ∧
        freq row ≥ 3 ∧ scorePre cfg row > 0 := by
  simp [bufferFires, and_assoc]

/-- The buffer entry never comes from steps 2-7. -/
theorem buffer_entry_not_pre {cfg : Config} {row : Row} :
    "frequency_buffer(-1)" ∉ preBufferReasons cfg row := by
  intro h
  simp only [preBufferReasons, List.mem_append, or_assoc] at h
  rcases h with hm | hm | hm | hm | hm | hm | hm | hm
  · exact absurd (mem_catReasons hm) (by decide)
  · exact absurd (mem_catReasons hm) (by decide)
  · exact absurd (mem_catReasons hm) (by decide)
  · exact absurd (mem_repReasons hm) (by decide)
  · exact absurd (mem_nightReasons hm) (by decide)
  · exact absurd (mem_geoReasons hm) (by decide)
  · rcases (mem_amountReasons hm).2 with ht | ⟨ht, _⟩
    · exact absurd ht (by decide)
    · exact absurd ht (by decide)
  · exact absurd (mem_latReasons hm) (by decide)

/-- The buffer entry is in the reasons list exactly when the guard fired. -/
theorem buffer_entry_iff {cfg : Config} {row : Row} :
    "frequency_buffer(-1)" ∈ reasonsList cfg row ↔ bufferFires cfg row = true := by
  rw [reasonsList_decomp, List.mem_append]
  constructor
  · rintro (h | h)
    · exact absurd h buffer_entry_not_pre
    · exact (mem_bufferReasons h).2
  · intro h
    right
    simp [bufferReasons, h]

/-- C4: when the hard block does not fire, the step-8 frequency buffer
subtracts exactly one point and appends `"frequency_buffer(-1)"` if and only
if the normalized reputation is recurrent or trusted, `customer_txn_30d` is
at least 3, and the running score before the step is strictly positive; the
entry appears at most once, the buffer never fires on a non-positive running
score, and the returned score is never more than one below the pre-buffer
score (and equals it when the buffer did not fire). -/
theorem frequency_buffer_spec (row : Row) (cfg : Config)
    (h : hardBlock row cfg = false) :
    ("frequency_buffer(-1)" ∈ (assess_row row cfg).reasons ↔
      (rep row = "recurrent" ∨ rep row = "trusted") ∧
        freq row ≥ 3 ∧ scorePre cfg row > 0) ∧
    ("frequency_buffer(-1)" ∈ (assess_row row cfg).reasons →
      (assess_row row cfg).risk_score = scorePre cfg row - 1) ∧
    ("frequency_buffer(-1)" ∉ (assess_row row cfg).reasons →
      (assess_row row cfg).risk_score = scorePre cfg row) ∧
    (scorePre cfg row ≤ 0 → "frequency_buffer(-1)" ∉ (assess_row row cfg).reasons) ∧
    scorePre cfg row - 1 ≤ (assess_row row cfg).risk_score ∧
    (assess_row row cfg).reasons.count "frequency_buffer(-1)" ≤ 1 := by
  simp only [assess_row, h, Bool.false_eq_true, if_false]
  have hmem := @buffer_entry_iff cfg row
  refine ⟨hmem.trans bufferFires_iff, ?_, ?_, ?_, ?_, ?_⟩
  · intro hin
    unfold finalScore
    rw [if_pos (hmem.1 hin)]
  · intro hout
    unfold finalScore
    rw [if_neg ?_]
    intro hf
    exact hout (hmem.2 hf)
  · intro hle hin
    have := (bufferFires_iff.1 (hmem.1 hin)).2.2
    omega
  · unfold finalScore
    split <;> omega
  · rw [reasonsList_decomp, List.count_append]
    have h0 : (preBufferReasons cfg row).count "frequency_buffer(-1)" = 0 :=
      List.count_eq_zero.2 buffer_entry_not_pre
    have h1 : (bufferReasons cfg row).count "frequency_buffer(-1)" ≤ 1 := by
      unfold bufferReasons
      split <;> simp
    omega

/-- C4 witness: a recurrent customer with 5 transactions in the last 30 days
and medium IP risk (pre-buffer score 2), under the default configuration. -/
theorem frequency_buffer_spec_witness :
    hardBlock rowBuffer DEFAULT_CONFIG = false ∧
    (("frequency_buffer(-1)" ∈ (assess_row rowBuffer DEFAULT_CONFIG).reasons ↔
      (rep rowBuffer = "recurrent" ∨ rep rowBuffer = "trusted") ∧
        freq rowBuffer ≥ 3 ∧ scorePre DEFAULT_CONFIG rowBuffer > 0) ∧
    ("frequency_buffer(-1)" ∈ (assess_row rowBuffer DEFAULT_CONFIG).reasons →
      (assess_row rowBuffer DEFAULT_CONFIG).risk_score =
        scorePre DEFAULT_CONFIG rowBuffer - 1) ∧
    ("frequency_buffer(-1)" ∉ (assess_row rowBuffer DEFAULT_CONFIG).reasons →
      (assess_row rowBuffer DEFAULT_CONFIG).risk_score =
        scorePre DEFAULT_CONFIG rowBuffer) ∧
    (scorePre DEFAULT_CONFIG rowBuffer ≤ 0 →
      "frequency_buffer(-1)" ∉ (assess_row rowBuffer DEFAULT_CONFIG).reasons) ∧
    scorePre DEFAULT_CONFIG rowBuffer - 1 ≤
      (assess_row rowBuffer DEFAULT_CONFIG).risk_score ∧
    (assess_row rowBuffer DEFAULT_CONFIG).reasons.count "frequency_buffer(-1)" ≤ 1) :=
  ⟨by decide, frequency_buffer_spec rowBuffer DEFAULT_CONFIG (by decide)⟩

/-- When the high-amount rule fired, its entry is among the amount reasons. -/
theorem high_entry_mem {cfg : Config} {row : Row}
    (hf : highFires cfg row = true) :
    ∃ r ∈ amountReasons cfg row, "high_amount:".data <+: r.data := by
  refine ⟨"high_amount:" ++ ptype row ++ ":" ++ toString (amount row) ++
    "(+" ++ toString cfg.w_high_amount ++ ")", ?_, ?_⟩
  · unfold amountReasons
    rw [if_pos hf]
    simp
  · exact tag_trans (tag_trans (tag_trans (tag_trans (tag_trans (append_tag _ _)))))

/-- C5: in every result whose reasons contain a `new_user_high_amount` entry,
the reasons also contain a `high_amount` entry; the nested sub-rule fired only
because the outer high-amount rule fired and the normalized reputation is
`"new"`. -/
theorem new_user_requires_high_amount (row : Row) (cfg : Config)
    (h : ∃ r ∈ (assess_row row cfg).reasons, "new_user_high_amount(".data <+: r.data) :
    (∃ r ∈ (assess_row row cfg).reasons, "high_amount:".data <+: r.data) ∧
      highFires cfg row = true ∧ rep row = "new" := by
  obtain ⟨r, hr, htag⟩ := h
  cases hhb : hardBlock row cfg with
  | true =>
      simp only [assess_row, hhb, if_true] at hr
      simp only [List.mem_singleton] at hr
      subst hr
      exact absurd htag (by decide)
  | false =>
      simp only [assess_row, hhb, Bool.false_eq_true, if_false] at hr ⊢
      rcases mem_reasonsList_iff.1 hr with hm | hm | hm | hm | hm | hm | hm | hm | hm
      · exact absurd htag (tag_excl (mem_catReasons hm) (by decide) (by decide))
      · exact absurd htag (tag_excl (mem_catReasons hm) (by decide) (by decide))
      · exact absurd htag (tag_excl (mem_catReasons hm) (by decide) (by decide))
      · exact absurd htag (tag_excl (mem_repReasons hm) (by decide) (by decide))
      · exact absurd htag (tag_excl (mem_nightReasons hm) (by decide) (by decide))
      · exact absurd htag (tag_excl (mem_geoReasons hm) (by decide) (by decide))
      · obtain ⟨hf, hcase⟩ := mem_amountReasons hm
        rcases hcase with ht | ⟨_, hrep⟩
        · exact absurd htag (tag_excl ht (by decide) (by decide))
        · obtain ⟨e, he, hetag⟩ := high_entry_mem hf
          refine ⟨⟨e, ?_, hetag⟩, hf, hrep⟩
          exact mem_reasonsList_iff.2 (Or.inr (Or.inr (Or.inr (Or.inr
            (Or.inr (Or.inr (Or.inl he)))))))
      · exact absurd htag (tag_excl (mem_latReasons hm) (by decide) (by decide))
      · rw [(mem_bufferReasons hm).1] at htag
        exact absurd htag (by decide)

/-- C5 witness: Scenario B under the default configuration, whose reasons
contain the new-user entry. -/
theorem new_user_requires_high_amount_witness :
    (∃ r ∈ (assess_row scenarioB DEFAULT_CONFIG).reasons,
      "high_amount:".data <+: r.data) ∧
      highFires DEFAULT_CONFIG scenarioB = true ∧ rep scenarioB = "new" :=
  new_user_requires_high_amount scenarioB DEFAULT_CONFIG (by decide)

/-- C7: when the hard block does not fire, the night-hour rule fires exactly
when the hour (default 12) is at least 22 or at most 5; when it fires, the
configured `night_hour` weight is its score contribution and a `night_hour`
reason is in the returned reasons — also when that weight is 0 — and when it
does not fire, it contributes nothing and no `night_hour` reason appears. -/
theorem night_rule_spec (row : Row) (cfg : Config)
    (h : hardBlock row cfg = false) :
    (is_night (hr row) = true ↔ (hr row ≥ 22 ∨ hr row ≤ 5)) ∧
    (is_night (hr row) = true →
      nightAdd cfg row = cfg.w_night_hour ∧
        ∃ r ∈ (assess_row row cfg).reasons, "night_hour:".data <+: r.data) ∧
    (is_night (hr row) = false →
      nightAdd cfg row = 0 ∧
        ∀ r ∈ (assess_row row cfg).reasons, ¬("night_hour:".data <+: r.data)) := by
  simp only [assess_row, h, Bool.false_eq_true, if_false]
  refine ⟨by simp [is_night], fun hn => ⟨by simp [nightAdd, hn], ?_⟩,
    fun hn => ⟨by simp [nightAdd, hn], ?_⟩⟩
  · refine ⟨"night_hour:" ++ toString (hr row) ++ "(+" ++
      toString cfg.w_night_hour ++ ")", ?_, ?_⟩
    · refine mem_reasonsList_iff.2 (Or.inr (Or.inr (Or.inr (Or.inr (Or.inl ?_)))))
      unfold nightReasons
      rw [hn]
      simp
    · exact tag_trans (tag_trans (tag_trans (append_tag _ _)))
  · intro r hrm htag
    rcases mem_reasonsList_iff.1 hrm with hm | hm | hm | hm | hm | hm | hm | hm | hm
    · exact tag_excl (mem_catReasons hm) (by decide) (by decide) htag
    · exact tag_excl (mem_catReasons hm) (by decide) (by decide) htag
    · exact tag_excl (mem_catReasons hm) (by decide) (by decide) htag
    · exact tag_excl (mem_repReasons hm) (by decide) (by decide) htag
    · unfold nightReasons at hm
      rw [hn] at hm
      cases hm
    · exact tag_excl (mem_geoReasons hm) (by decide) (by decide) htag
    · rcases (mem_amountReasons hm).2 with ht | ⟨ht, _⟩
      · exact tag_excl ht (by decide) (by decide) htag
      · exact tag_excl ht (by decide) (by decide) htag
    · exact tag_excl (mem_latReasons hm) (by decide) (by decide) htag
    · rw [(mem_bufferReasons hm).1] at htag
      exact absurd htag (by decide)

/-- C7 witness: the 23h row under the default configuration with the
night-hour weight set to 0 — the reason is still appended. -/
theorem night_rule_spec_witness :
    (is_night (hr rowNight) = true ↔ (hr rowNight ≥ 22 ∨ hr rowNight ≤ 5)) ∧
    (is_night (hr rowNight) = true →
      nightAdd cfgNightZero rowNight = cfgNightZero.w_night_hour ∧
        ∃ r ∈ (assess_row rowNight cfgNightZero).reasons,
          "night_hour:".data <+: r.data) ∧
    (is_night (hr rowNight) = false →
      nightAdd cfgNightZero rowNight = 0 ∧
        ∀ r ∈ (assess_row rowNight cfgNightZero).reasons,
          ¬("night_hour:".data <+: r.data)) :=
  night_rule_spec rowNight cfgNightZero (by decide)

/-- A dictionary lookup with default yields the default or a stored value. -/
theorem dictGet_cases (m : List (String × Int)) (k : String) (d : Int) :
    dictGet m k d = d ∨ dictGet m k d ∈ m.map Prod.snd := by
  induction m with
  | nil => exact Or.inl rfl
  | cons p rest ih =>
      by_cases hk : p.1 = k
      · right
        have he : dictGet (p :: rest) k d = p.2 := by
          simp [dictGet, dictFind, hk]
        rw [he]
        simp
      · have he : dictGet (p :: rest) k d = dictGet rest k d := by
          simp [dictGet, dictFind, hk]
        rw [he]
        rcases ih with h | h
        · exact Or.inl h
        · right
          simp only [List.map_cons, List.mem_cons]
          exact Or.inr h


/-- A lookup in a table whose default and stored values are all at most `b`
is at most `b`. -/
theorem dictGet_le {m : List (String × Int)} {b : Int} (k : String) (d : Int)
    (hd : d ≤ b) (hm : ∀ v ∈ m.map Prod.snd, v ≤ b) : dictGet m k d ≤ b := by
  rcases dictGet_cases m k d with h | h
  · omega
  · exact hm _ h

/-- Under the default configuration the pre-buffer score is at most 22: the
categorical maxima 4+3+4, reputation at most 4, night 1, geo 2, high amount 2,
extreme latency 2, and the nested new-user 2 only together with the
reputation weight for `"new"`, which is 0. -/
theorem scorePre_le_default (row : Row) : scorePre DEFAULT_CONFIG row ≤ 22 := by
  have hip : catAdd DEFAULT_CONFIG.w_ip_risk row.ip_risk ≤ 4 :=
    dictGet_le _ _ (by decide) (by decide)
  have hem : catAdd DEFAULT_CONFIG.w_email_risk row.email_risk ≤ 3 :=
    dictGet_le _ _ (by decide) (by decide)
  have hdev : catAdd DEFAULT_CONFIG.w_device_fingerprint_risk
      row.device_fingerprint_risk ≤ 4 :=
    dictGet_le _ _ (by decide) (by decide)
  have hnight : nightAdd DEFAULT_CONFIG row ≤ 1 := by
    unfold nightAdd
    split <;> decide
  have hgeo : geoAdd DEFAULT_CONFIG row ≤ 2 := by
    unfold geoAdd
    split <;> decide
  have hhigh : highAdd DEFAULT_CONFIG row ≤ 2 := by
    unfold highAdd
    split <;> decide
  have hlat : latAdd DEFAULT_CONFIG row ≤ 2 := by
    unfold latAdd
    split <;> decide
  by_cases hrep : rep row = "new"
  · have hr0 : repAdd DEFAULT_CONFIG row = 0 := by
      unfold repAdd
      rw [hrep]
      decide
    have hnu : newUserAdd DEFAULT_CONFIG row ≤ 2 := by
      unfold newUserAdd
      split <;> decide
    unfold scorePre
    omega
  · have hr4 : repAdd DEFAULT_CONFIG row ≤ 4 :=
      dictGet_le _ _ (by decide) (by decide)
    have hnu0 : newUserAdd DEFAULT_CONFIG row = 0 := by
      simp [newUserAdd, hrep]
    unfold scorePre
    omega

/-- Under the default configuration the final score of a non-hard-blocked
transaction is at most 22. -/
theorem finalScore_le_default (row : Row) :
    finalScore DEFAULT_CONFIG row ≤ 22 := by
  have h := scorePre_le_default row
  unfold finalScore
  split <;> omega

/-- C10: under the default configuration, `assess_row` returns `risk_score`
100 exactly when the hard block fired; every non-hard-block score is at most
22 (the sum of the maximal default weights), so 100 uniquely identifies a
hard-block rejection. -/
theorem score_100_iff_hard_block (row : Row) :
    ((assess_row row DEFAULT_CONFIG).risk_score = 100 ↔
      hardBlock row DEFAULT_CONFIG = true) ∧
    (hardBlock row DEFAULT_CONFIG = false →
      (assess_row row DEFAULT_CONFIG).risk_score ≤ 22) := by
  have hb := finalScore_le_default row
  cases hhb : hardBlock row DEFAULT_CONFIG with
  | true => simp [assess_row, hhb]
  | false =>
      simp only [assess_row, hhb, Bool.false_eq_true, if_false]
      refine ⟨⟨fun h100 => by omega, fun hf => by cases hf⟩, fun _ => hb⟩

end Engine
